import Mathlib

/-!
Shallow embedding of src/index.js of quasar-ssg-helper.

The module exports one async function generateSsg that merges caller
overrides into defaults and calls the orchestrator _generateSsg, which
checks the SSR dist path, prepares the output directory, resolves a port,
spawns the SSR server child process, registers a readiness watcher and
resolves; the watcher fetches the root document and kills the child.

Modelling conventions:
  - External async capabilities (pathExists, the free-port search, the
    HTTP fetch) are oracles: their results are inputs to the model.
  - console.assert (imported from the console module, line 12) logs its
    message when the condition is false and returns; it never throws in
    Node 14. The model records the logged messages in assertLogs.
  - The await at lines 68-70 is modelled with a minimal promise model
    that records which filesystem operations a promise awaits, because
    then() there receives promises (the results of calling emptyDir and
    copy immediately), not callbacks.
  - JS numbers are modelled as Int, with Option Int where NaN matters
    (a missing value is none). Port parameters cover the documented
    shapes: a number, a two-element range array, or undefined.
  - The run result separates what happens synchronously up to the
    settlement of the promise _generateSsg returns (trace fields and
    outcome) from the readiness handler, which runs later per readiness
    event and is modelled as a pure function of the fetch outcome.
-/

namespace QuasarSsgHelper

/-- Shape of the port parameter (JSDoc line 24): a number, an array holding
a start and end port range, or undefined. -/
inductive PortParam
  | num (n : Int)
  | range (lo hi : Int)
  | undef
deriving DecidableEq, Repr

/-- Shape of the wait parameter (lines 30-34): a string, a number, or any
other value (which reaches the final else at line 112). -/
inductive WaitParam
  | str (s : String)
  | num (n : Int)
  | other
deriving DecidableEq, Repr

/-- The dir object; each field is an Option because a caller-built object
may omit keys (they read as undefined). -/
structure DirParam where
  ssr : Option String
  static : Option String
  ssg : Option String
deriving DecidableEq, Repr

/-- The fully-populated parameter object consumed by _generateSsg. -/
structure Params where
  cwd : String
  port : PortParam
  wait : WaitParam
  dir : DirParam
deriving DecidableEq, Repr

/-- A caller-supplied parameter object: each top-level key may be absent
(none), in which case the spread at lines 51-54 keeps the default. -/
structure ParObj where
  cwd : Option String
  port : Option PortParam
  wait : Option WaitParam
  dir : Option DirParam
deriving DecidableEq, Repr

/-- defaultParam (lines 36-45). The cwd default is process.cwd(), an
ambient value, passed in as processCwd. -/
def defaultParam (processCwd : String) : Params :=
  { cwd := processCwd
    port := PortParam.undef
    wait := WaitParam.str "stdout"
    dir := { ssr := some "dist/ssr", static := some "dist/ssr/www", ssg := some "dist/ssg" } }

/-- The merge performed by generateSsg (lines 50-55): a single top-level
object spread. A key present in parObj replaces the default wholesale;
in particular a supplied dir object replaces the whole default dir. -/
def mergeParams (processCwd : String) (parObj : ParObj) : Params :=
  { cwd := parObj.cwd.getD (defaultParam processCwd).cwd
    port := parObj.port.getD (defaultParam processCwd).port
    wait := parObj.wait.getD (defaultParam processCwd).wait
    dir := parObj.dir.getD (defaultParam processCwd).dir }

/-- JS Number coercion of the port parameter, as used at line 72; none
models NaN. Number(undefined) is NaN and Number of a two-element array
is NaN. -/
def jsNumberOfPort : PortParam → Option Int
  | PortParam.num n => some n
  | PortParam.range _ _ => none
  | PortParam.undef => none

/-- Truthiness of a JS number: 0 and NaN are falsy, all else truthy. -/
def numTruthy : Option Int → Bool
  | some n => n != 0
  | none => false

/-- Results of the ambient environment and of the external capabilities,
fixed per run. envPort is Number(process.env.PORT) computed at module
load (line 19); none models NaN (variable unset or non-numeric).
ssrExists is the result of pathExists(dir.ssr) at line 64. The getPort
fields are the ports found by the portfinder searches. -/
structure Oracle where
  processCwd : String
  envPort : Option Int
  ssrExists : Bool
  getPortAnyRes : Int
  getPortRangeRes : Int → Int → Int

/-- Port resolution, lines 72-80. If Number(port) is truthy the block is
skipped and the configured value stands, so an explicit nonzero number
beats envPort. Otherwise envPort wins when truthy; otherwise a range
(typeof port === typeof [] holds exactly for the array shape here)
goes to the bounded search, and anything else to the unbounded search. -/
def resolvePort (o : Oracle) (port : PortParam) : Int :=
  if numTruthy (jsNumberOfPort port) then
    (jsNumberOfPort port).getD 0
  else if numTruthy o.envPort then
    o.envPort.getD 0
  else
    match port with
    | PortParam.range lo hi => o.getPortRangeRes lo hi
    | _ => o.getPortAnyRes

/-- Filesystem operations started during output preparation. -/
inductive FsOp
  | ensure (d : Option String)
  | empty (d : Option String)
  | copyTree (src dst : Option String)
deriving DecidableEq, Repr

/-- Minimal promise model for lines 68-70: a promise is identified by the
list of operations whose completion it awaits. -/
structure JsPromise where
  deps : List FsOp
deriving DecidableEq, Repr

/-- ECMAScript then() with a non-callable first argument: the handler is
replaced by identity, so the resulting promise settles exactly when the
receiver settles. Lines 69-70 pass promises (the values returned by
calling emptyDir and copy on the spot), not callbacks, so this is the
semantics of that chain. -/
def thenNonCallable (p : JsPromise) (_q : JsPromise) : JsPromise := p

def ensureDir (d : Option String) : JsPromise := ⟨[FsOp.ensure d]⟩

def emptyDir (d : Option String) : JsPromise := ⟨[FsOp.empty d]⟩

def copy (src dst : Option String) : JsPromise := ⟨[FsOp.copyTree src dst]⟩

/-- Operations initiated by evaluating lines 68-70, in argument-evaluation
order: all three calls happen immediately when the chain is built, so
all three operations start concurrently. -/
def prepStartedOps (sdir ddir : Option String) : List FsOp :=
  (ensureDir ddir).deps ++ (emptyDir ddir).deps ++ (copy sdir ddir).deps

/-- The promise actually awaited at lines 68-70:
ensureDir(dir.ssg).then(emptyDir(dir.ssg)).then(copy(dir.static, dir.ssg)). -/
def prepAwaitedPromise (sdir ddir : Option String) : JsPromise :=
  thenNonCallable (thenNonCallable (ensureDir ddir) (emptyDir ddir)) (copy sdir ddir)

/-- The child-process record produced by spawnSrv (lines 124-133): the
working directory, the entry path run under node, the port injected into
the PORT environment variable, and the stdio entry for fd 1. The stdio
entry is an Option because the object lookup at line 93 yields undefined
for a wait string other than stdout or ipc. -/
structure SpawnInfo where
  cwd : String
  ssrDir : Option String
  portEnv : Int
  stdoutOpt : Option String
deriving DecidableEq, Repr

def spawnSrv (cwd : String) (ssrDir : Option String) (port : Int) (stdoutOpt : Option String) : SpawnInfo :=
  { cwd := cwd, ssrDir := ssrDir, portEnv := port, stdoutOpt := stdoutOpt }

/-- Node child_process semantics: childProcess.stdout is a stream exactly
when the effective stdio entry for fd 1 is a pipe; the value ipc puts an
IPC channel there and leaves childProcess.stdout null, and an undefined
entry defaults to pipe for fds 0, 1 and 2. -/
def hasStdoutStream : Option String → Bool
  | some s => s == "pipe"
  | none => true

/-- The stdio entry for fd 1 chosen at line 93 by the object lookup
\x7b stdout: pipe, ipc: ipc \x7d[wait]; unknown keys read as undefined. -/
def stdioFor : String → Option String
  | "stdout" => some "pipe"
  | "ipc" => some "ipc"
  | _ => none

/-- The event name chosen at line 95 by the object lookup
\x7b stdout: data, ipc: message \x7d[wait]. -/
def eventFor : String → Option String
  | "stdout" => some "data"
  | "ipc" => some "message"
  | _ => none

/-- How a listener registration behaves: EventEmitter.on, used at line 95,
subscribes persistently (the handler runs on every matching event);
EventEmitter.once would be one-shot. -/
inductive ListenerMode
  | persistent
  | oneShot
deriving DecidableEq, Repr

/-- Number of times a registered handler runs, given how many matching
events the child emits. -/
def invocations : ListenerMode → Nat → Nat
  | ListenerMode.persistent, k => k
  | ListenerMode.oneShot, k => min k 1

/-- Result of the HTTP fetch inside captureIndex, supplied by the oracle
per handler invocation. -/
inductive FetchOutcome
  | ok (data : String)
  | err (msg : String)
deriving DecidableEq, Repr

/-- What one call to captureIndex does: the GET it issues, the outputFile
calls it starts, and whether its promise rejects. -/
structure CaptureResult where
  httpGets : List String
  writesStarted : List (String × String)
  error : Option String
deriving DecidableEq, Repr

/-- captureIndex (lines 141-143): GET http://127.0.0.1:PORT/; on success
start outputFile to the string literal path dist/ssg/index.html with the
response data and resolve at once (the outputFile promise is discarded,
so its completion and any write error are unobservable); on fetch
rejection, reject with that error. -/
def captureIndex (port : Int) (f : FetchOutcome) : CaptureResult :=
  let url := "http://127.0.0.1:" ++ toString port ++ "/"
  match f with
  | FetchOutcome.ok d => ⟨[url], [("dist/ssg/index.html", d)], none⟩
  | FetchOutcome.err m => ⟨[url], [], some m⟩

/-- One run of the readiness handler. -/
structure HandlerRun where
  capture : CaptureResult
  killed : Bool
  unhandledRejection : Bool
deriving DecidableEq, Repr

/-- The async readiness handler of lines 95-98 (identical body at lines
107-110): await captureIndex(port), then srvProc.kill(). When
captureIndex rejects, the await rethrows, kill is skipped, and the
handler promise rejects with nothing attached to observe it. -/
def readinessHandler (port : Int) (f : FetchOutcome) : HandlerRun :=
  let c := captureIndex port f
  match c.error with
  | none => ⟨c, true, false⟩
  | some _ => ⟨c, false, true⟩

/-- What _generateSsg arms before its promise settles: a stream listener
(line 95) or a timer (lines 107-110), each closing over the port. -/
inductive Armed
  | listener (eventName : Option String) (mode : ListenerMode) (port : Int)
  | timer (ms : Int) (port : Int)
deriving DecidableEq, Repr

/-- Settlement of the promise returned by _generateSsg. -/
inductive Outcome
  | resolved
  | rejected (msg : String)
deriving DecidableEq, Repr

/-- Everything observable about one call of _generateSsg up to the
settlement of its returned promise. prepStarted lists the filesystem
operations initiated; prepAwaited lists those whose completion is
awaited before the run continues. -/
structure RunResult where
  assertLogs : List String
  prepStarted : List FsOp
  prepAwaited : List FsOp
  resolvedPort : Option Int
  spawned : Option SpawnInfo
  armed : Option Armed
  outcome : Outcome
deriving DecidableEq, Repr

/-- _generateSsg (lines 63-114), transcribed step by step. console.assert
only logs; the preparation chain awaits only ensureDir; port resolution
is resolvePort; the wait dispatch spawns and arms a watcher for string
waits (rejecting with a TypeError when childProcess.stdout is null, as
happens for wait ipc), spawns and arms a timer for number waits, and
throws Invalid parameters otherwise. -/
def _generateSsg (o : Oracle) (p : Params) : RunResult :=
  let logs0 : List String :=
    if o.ssrExists then [] else ["SSR dist path does not exist, please build SSR first."]
  let started := prepStartedOps p.dir.static p.dir.ssg
  let awaited := (prepAwaitedPromise p.dir.static p.dir.ssg).deps
  let port := resolvePort o p.port
  let logs1 := logs0 ++ (if port > 0 && port ≤ 65535 then [] else ["No available ports"])
  match p.wait with
  | WaitParam.str s =>
    let logs2 := logs1 ++ (if s == "stdout" || s == "ipc" then [] else ["Invalid String parameter."])
    let info := spawnSrv p.cwd p.dir.ssr port (stdioFor s)
    if hasStdoutStream info.stdoutOpt then
      { assertLogs := logs2, prepStarted := started, prepAwaited := awaited
        resolvedPort := some port, spawned := some info
        armed := some (Armed.listener (eventFor s) ListenerMode.persistent port)
        outcome := Outcome.resolved }
    else
      { assertLogs := logs2, prepStarted := started, prepAwaited := awaited
        resolvedPort := some port, spawned := some info
        armed := none
        outcome := Outcome.rejected "TypeError: Cannot read properties of null" }
  | WaitParam.num n =>
    let logs2 := logs1 ++ (if n > 0 then [] else ["Invalid Number parameter."])
    let info := spawnSrv p.cwd p.dir.ssr port (some "ignore")
    { assertLogs := logs2, prepStarted := started, prepAwaited := awaited
      resolvedPort := some port, spawned := some info
      armed := some (Armed.timer n port)
      outcome := Outcome.resolved }
  | WaitParam.other =>
    { assertLogs := logs1, prepStarted := started, prepAwaited := awaited
      resolvedPort := some port, spawned := none
      armed := none
      outcome := Outcome.rejected "Invalid parameters" }

/-- generateSsg (lines 50-55): merge the caller object over the defaults
with one spread, then run _generateSsg. -/
def generateSsg (o : Oracle) (parObj : ParObj) : RunResult :=
  _generateSsg o (mergeParams o.processCwd parObj)

/-! Concrete environments used to evaluate runs. -/

/-- A benign environment: SSR dist present, no PORT variable, free-port
search finds 4242 (or the low bound of a range). -/
def testOracle : Oracle :=
  { processCwd := "/proj", envPort := none, ssrExists := true
    getPortAnyRes := 4242, getPortRangeRes := fun lo _ => lo }

/-- Environment with PORT set to 3001. -/
def envOracle : Oracle :=
  { processCwd := "/proj", envPort := some 3001, ssrExists := true
    getPortAnyRes := 4242, getPortRangeRes := fun lo _ => lo }

/-- Environment in which the SSR dist path does not exist. -/
def noSsrOracle : Oracle :=
  { processCwd := "/proj", envPort := none, ssrExists := false
    getPortAnyRes := 4242, getPortRangeRes := fun lo _ => lo }

/-- Environment with PORT set to 70000, outside the valid port interval. -/
def badEnvOracle : Oracle :=
  { processCwd := "/proj", envPort := some 70000, ssrExists := true
    getPortAnyRes := 4242, getPortRangeRes := fun lo _ => lo }

/-- A caller object supplying nothing, so every default applies. -/
def plainParObj : ParObj := { cwd := none, port := none, wait := none, dir := none }

/-- A caller object redirecting the output directory to out. -/
def outDirParObj : ParObj :=
  { cwd := none, port := none, wait := none
    dir := some { ssr := some "dist/ssr", static := some "dist/ssr/www", ssg := some "out" } }

/-- A caller object supplying an explicit out-of-interval port. -/
def hugePortParObj : ParObj :=
  { cwd := none, port := some (PortParam.num 70000), wait := none, dir := none }

/-- A caller object selecting the ipc wait strategy. -/
def ipcParObj : ParObj :=
  { cwd := none, port := none, wait := some (WaitParam.str "ipc"), dir := none }

/-! Claim theorems. -/

/-- Claim C1, counterexample: a default run reaches the spawn step and arms
the stdout listener, yet on the path where the capture fetch rejects the
readiness handler never invokes kill on the child handle. -/
theorem C1_counterexample :
    (generateSsg testOracle plainParObj).spawned.isSome = true ∧
    (generateSsg testOracle plainParObj).armed =
      some (Armed.listener (some "data") ListenerMode.persistent 4242) ∧
    (readinessHandler 4242 (FetchOutcome.err "connect ECONNREFUSED 127.0.0.1:4242")).killed = false := by
  decide

/-- Claim C1, amended: the readiness handler kills the child exactly when
its capture fetch resolves; when the fetch rejects, kill is skipped and the
handler promise rejects unobserved. -/
theorem C1_amended (port : Int) (f : FetchOutcome) :
    ((readinessHandler port f).killed = true ↔ ∃ d, f = FetchOutcome.ok d) ∧
    ((readinessHandler port f).unhandledRejection = true ↔ ∃ m, f = FetchOutcome.err m) := by
  cases f <;> simp [readinessHandler, captureIndex]

/-- Claim C2: with the output directory configured as out, the run arms the
capture, but the captured body is written to the string literal path
dist/ssg/index.html, not to out/index.html; only the content is verbatim. -/
theorem C2_code_behavior :
    (generateSsg testOracle outDirParObj).armed =
      some (Armed.listener (some "data") ListenerMode.persistent 4242) ∧
    (readinessHandler 4242 (FetchOutcome.ok "<html>page</html>")).capture.writesStarted =
      [("dist/ssg/index.html", "<html>page</html>")] ∧
    ("dist/ssg/index.html" : String) ≠ "out/index.html" := by
  decide

/-- Claim C3, counterexample: the promise returned for a default run is
already resolved at watcher registration, while the later capture fetch
failure only rejects the handler promise, which nothing observes; the
caller never sees a rejection. -/
theorem C3_counterexample :
    (generateSsg testOracle plainParObj).outcome = Outcome.resolved ∧
    (readinessHandler 4242 (FetchOutcome.err "Request failed with status code 500")).unhandledRejection = true ∧
    (readinessHandler 4242 (FetchOutcome.err "Request failed with status code 500")).killed = false := by
  decide

/-- Claim C3, amended: for every stdout-wait run the returned promise
resolves at watcher registration, independent of the capture; a capture
fetch failure surfaces only as an unhandled rejection of the handler
promise (and skips the kill), and a write failure is discarded with the
unawaited outputFile promise. -/
theorem C3_amended (o : Oracle) (p : Params) (port : Int) (m : String)
    (h : p.wait = WaitParam.str "stdout") :
    (_generateSsg o p).outcome = Outcome.resolved ∧
    (readinessHandler port (FetchOutcome.err m)).unhandledRejection = true ∧
    (readinessHandler port (FetchOutcome.err m)).killed = false := by
  obtain ⟨cwd, port', wait, dir⟩ := p
  cases h
  exact ⟨rfl, rfl, rfl⟩

/-- Claim C3, witness for the amended statement at a concrete run. -/
theorem C3_amended_witness :
    (_generateSsg testOracle (mergeParams "/proj" plainParObj)).outcome = Outcome.resolved ∧
    (readinessHandler 4242 (FetchOutcome.err "connect ECONNREFUSED")).unhandledRejection = true ∧
    (readinessHandler 4242 (FetchOutcome.err "connect ECONNREFUSED")).killed = false :=
  C3_amended testOracle (mergeParams "/proj" plainParObj) 4242 "connect ECONNREFUSED" rfl

/-- Claim C4: when the SSR dist path does not exist, console.assert only
logs its message; the run still empties and seeds the output directory,
spawns the child, and resolves instead of failing. -/
theorem C4_code_behavior :
    (generateSsg noSsrOracle plainParObj).assertLogs =
      ["SSR dist path does not exist, please build SSR first."] ∧
    (generateSsg noSsrOracle plainParObj).prepStarted =
      [FsOp.ensure (some "dist/ssg"), FsOp.empty (some "dist/ssg"),
        FsOp.copyTree (some "dist/ssr/www") (some "dist/ssg")] ∧
    (generateSsg noSsrOracle plainParObj).spawned.isSome = true ∧
    (generateSsg noSsrOracle plainParObj).outcome = Outcome.resolved := by
  decide

/-- Claim C5: an explicit port 70000 and an environment port 70000 both
survive resolution; the interval assert only logs, and the child is
spawned with the invalid port in its environment. -/
theorem C5_code_behavior :
    (generateSsg testOracle hugePortParObj).resolvedPort = some 70000 ∧
    (generateSsg testOracle hugePortParObj).assertLogs = ["No available ports"] ∧
    (generateSsg testOracle hugePortParObj).spawned =
      some (spawnSrv "/proj" (some "dist/ssr") 70000 (some "pipe")) ∧
    (generateSsg testOracle hugePortParObj).outcome = Outcome.resolved ∧
    (generateSsg badEnvOracle plainParObj).resolvedPort = some 70000 ∧
    (generateSsg badEnvOracle plainParObj).spawned.isSome = true := by
  decide

/-- Claim C6, counterexample: with the environment port 3001 present and
truthy, an explicitly configured port 8080 is used, so the environment
value does not win over an explicit numeric port. -/
theorem C6_counterexample :
    envOracle.envPort = some 3001 ∧
    numTruthy envOracle.envPort = true ∧
    resolvePort envOracle (PortParam.num 8080) = 8080 ∧
    resolvePort envOracle (PortParam.num 8080) ≠ 3001 := by
  decide

/-- Claim C6, amended: a truthy environment port wins exactly when the
configured port does not coerce to a truthy number, that is over an
explicit range and over an absent port; an explicit nonzero numeric port
wins over the environment value. -/
theorem C6_amended (o : Oracle) (v lo hi n : Int)
    (henv : o.envPort = some v) (hv : v ≠ 0) (hn : n ≠ 0) :
    resolvePort o (PortParam.range lo hi) = v ∧
    resolvePort o PortParam.undef = v ∧
    resolvePort o (PortParam.num n) = n := by
  refine ⟨?_, ?_, ?_⟩ <;>
    simp [resolvePort, jsNumberOfPort, numTruthy, henv, hv, hn]

/-- Claim C6, witness for the amended statement. -/
theorem C6_amended_witness :
    resolvePort envOracle (PortParam.range 5000 5010) = 3001 ∧
    resolvePort envOracle PortParam.undef = 3001 ∧
    resolvePort envOracle (PortParam.num 8080) = 8080 :=
  C6_amended envOracle 3001 5000 5010 8080 rfl (by decide) (by decide)

/-- Claim C7: the preparation chain starts ensureDir, emptyDir and copy
all at once, and the await covers only ensureDir; neither the emptying
nor the copy is awaited before the run goes on to spawn. -/
theorem C7_code_behavior :
    (generateSsg testOracle plainParObj).prepStarted =
      [FsOp.ensure (some "dist/ssg"), FsOp.empty (some "dist/ssg"),
        FsOp.copyTree (some "dist/ssr/www") (some "dist/ssg")] ∧
    (generateSsg testOracle plainParObj).prepAwaited = [FsOp.ensure (some "dist/ssg")] ∧
    FsOp.copyTree (some "dist/ssr/www") (some "dist/ssg") ∉ (generateSsg testOracle plainParObj).prepAwaited ∧
    FsOp.empty (some "dist/ssg") ∉ (generateSsg testOracle plainParObj).prepAwaited ∧
    (generateSsg testOracle plainParObj).spawned.isSome = true := by
  decide

/-- Claim C8, counterexample: the armed watcher is a persistent
subscription, so two stdout data events run the handler twice, not at
most once. -/
theorem C8_counterexample :
    (generateSsg testOracle plainParObj).armed =
      some (Armed.listener (some "data") ListenerMode.persistent 4242) ∧
    invocations ListenerMode.persistent 2 = 2 ∧
    ¬ invocations ListenerMode.persistent 2 ≤ 1 := by
  decide

/-- Claim C8, amended: the watcher is registered with a persistent
subscription, the handler runs once per matching event (a one-shot
subscription would cap this at one), and each handler run issues exactly
one GET to the local server. -/
theorem C8_amended (k : Nat) (port : Int) (f : FetchOutcome) :
    (generateSsg testOracle plainParObj).armed =
      some (Armed.listener (some "data") ListenerMode.persistent 4242) ∧
    invocations ListenerMode.persistent k = k ∧
    invocations ListenerMode.oneShot k = min k 1 ∧
    (readinessHandler port f).capture.httpGets =
      ["http://127.0.0.1:" ++ toString port ++ "/"] := by
  refine ⟨by decide, rfl, rfl, ?_⟩
  cases f <;> rfl

/-- Claim C9: under wait ipc the child is spawned with the ipc stdio entry
for fd 1, childProcess.stdout is therefore null, no watcher is ever
registered, and the run rejects with a TypeError. -/
theorem C9_code_behavior :
    (generateSsg testOracle ipcParObj).spawned =
      some (spawnSrv "/proj" (some "dist/ssr") 4242 (some "ipc")) ∧
    hasStdoutStream (some "ipc") = false ∧
    (generateSsg testOracle ipcParObj).armed = none ∧
    (generateSsg testOracle ipcParObj).outcome =
      Outcome.rejected "TypeError: Cannot read properties of null" := by
  decide

/-- Claim C10: the merge is a shallow top-level spread, so a supplied dir
object replaces the default dir wholesale and omitted dir keys stay
undefined rather than falling back to the documented defaults. -/
theorem C10_shallow_merge (pc : String) (po : ParObj) (d : DirParam)
    (h : po.dir = some d) :
    (mergeParams pc po).dir = d ∧
    (mergeParams pc po).dir.ssr = d.ssr ∧
    (mergeParams pc po).dir.static = d.static := by
  simp [mergeParams, h]

/-- Claim C10, witness: supplying only the ssg key leaves dir.ssr and
dir.static undefined after the merge. -/
theorem C10_witness :
    (mergeParams "/proj"
      { cwd := none, port := none, wait := none
        dir := some { ssr := none, static := none, ssg := some "out" } }).dir =
      { ssr := none, static := none, ssg := some "out" } ∧
    (mergeParams "/proj"
      { cwd := none, port := none, wait := none
        dir := some { ssr := none, static := none, ssg := some "out" } }).dir.ssr = none ∧
    (mergeParams "/proj"
      { cwd := none, port := none, wait := none
        dir := some { ssr := none, static := none, ssg := some "out" } }).dir.static = none :=
  C10_shallow_merge "/proj" _ { ssr := none, static := none, ssg := some "out" } rfl

end QuasarSsgHelper
